import Mathlib

/-!
# Verification of the sovereign device-replication subsystem

Shallow embedding of the Python sources under `sovereign_storage/` and of the
chunked sync sender/receiver (`apn_data_sync_sender.py`, `apn_data_sync_receiver.py`),
together with theorems settling the frozen claims about the spec.

Byte strings are modelled as `List Nat`; SHA-256 is kept abstract as a function
parameter `sha256 : Bytes → String` (the code only computes, compares and
forwards digests, so every claim is either uniform in the hash function or is
settled by instantiating it).  Machine floats used for GB accounting are
modelled as exact rationals (`ℚ`); the divisions by 1024³ the code performs are
exact in binary floating point for all realistic sizes, so order comparisons
agree.  SQLite tables are modelled as Lean lists of row structures, and the
fallibility of I/O (file writes, message decoding) as explicit `Bool` oracles /
`Option`s.
-/

namespace SovereignStorage

/-- Raw byte strings (each entry one byte). -/
abbrev Bytes := List Nat

/-! ## Storage provider service (`storage_provider_server.py`) -/

namespace StorageProviderServer

/-- One entry of the in-memory `self.replicas` index
(`storage_provider_server.py`, lines 113-122). -/
structure ReplicaInfo where
  path : String
  version : Nat
  checksum : String
  encrypted_checksum : String
  size : Nat
  encrypted_size : Nat
  last_updated : Nat
  deriving Repr, DecidableEq

/-- A row of the `storage_contracts` table, restricted to the columns the
provider server reads or writes. -/
structure Contract where
  id : Nat
  provider_device_id : String
  status : String
  actual_storage_used_gb : ℚ
  total_data_transferred_gb : ℚ
  monthly_rate_vibe : ℚ
  deriving Repr, DecidableEq

/-- The state a `StorageProviderServer` instance owns: its device id, the
in-memory replica index, the files under `storage_dir` (path ↦ bytes), and the
`storage_contracts` table of its SQLite database. -/
structure ProviderState where
  device_id : String
  replicas : List (String × ReplicaInfo)
  files : List (String × Bytes)
  contracts : List Contract
  deriving Repr, DecidableEq

/-- Construction (`__init__`, lines 39-54): the replica index starts empty
regardless of what `storage_dir` already holds on disk. -/
def init (device_id : String) (diskFiles : List (String × Bytes))
    (contracts : List Contract) : ProviderState :=
  { device_id := device_id
    replicas := []
    files := diskFiles
    contracts := contracts }

/-- A decoded sync message as `handle_sync_request` distinguishes them:
`malformed` covers a JSON or base64 decode failure, `metadataV2` the
"from_device"/"projects" early-return branch, `fullSync` the old full-database
format (fields per lines 83-88; absent fields already defaulted). -/
inductive SyncMsg where
  | malformed : SyncMsg
  | metadataV2 (from_device : String) (projects : Nat) : SyncMsg
  | fullSync (src : String) (version : Nat) (checksum : String)
      (size : Nat) (encrypted_size : Nat) (data : Bytes) : SyncMsg
  deriving Repr, DecidableEq

/-- The acknowledgment payload published on `apn.storage.ack.<client>`
(lines 128-133; the timestamp is omitted as the claims never mention it). -/
structure Ack where
  success : Bool
  version : Nat
  checksum : String
  deriving Repr, DecidableEq

/-- Observable outcome of one `handle_sync_request` call: an exception caught
and logged (no ack), the metadata-only early return (no ack), or a published
acknowledgment. -/
inductive SyncResult where
  | errorLogged : SyncResult
  | metadataOnly : SyncResult
  | acked (a : Ack) : SyncResult
  deriving Repr, DecidableEq

/-- Replica file path for a source device (line 100). -/
def replicaPath (src : String) : String := src ++ ".db.encrypted"

/-- Find the first active contract of this provider
(`SELECT id FROM storage_contracts WHERE provider_device_id = ? AND status =
'active' LIMIT 1`, lines 153-158 / 237-242). -/
def findActiveContract (s : ProviderState) : Option Contract :=
  s.contracts.find? (fun c => c.provider_device_id == s.device_id && c.status == "active")

/-- Embedding of `_record_storage_metrics` (lines 147-176): overwrite the active contract's
`actual_storage_used_gb` with the ciphertext size in GB. -/
def record_storage_metrics (s : ProviderState) (encrypted_size : Nat) : ProviderState :=
  match findActiveContract s with
  | none => s
  | some contract =>
      let size_gb : ℚ := (encrypted_size : ℚ) / 1024 / 1024 / 1024
      { s with contracts := s.contracts.map (fun c =>
          if c.id == contract.id then { c with actual_storage_used_gb := size_gb } else c) }

/-- Embedding of `_record_transfer` (lines 231-259): add the transferred GB to the active
contract's `total_data_transferred_gb`. -/
def record_transfer (s : ProviderState) (bytes_transferred : Nat) : ProviderState :=
  match findActiveContract s with
  | none => s
  | some contract =>
      let gb_transferred : ℚ := (bytes_transferred : ℚ) / 1024 / 1024 / 1024
      { s with contracts := s.contracts.map (fun c =>
          if c.id == contract.id then
            { c with total_data_transferred_gb := c.total_data_transferred_gb + gb_transferred }
          else c) }

/-- Embedding of `handle_sync_request` (lines 63-145).  `writeOk` is the oracle for the
replica-file write (lines 104-105) succeeding; a decode failure or write
failure raises, is caught by the `except` block and logged, and no
acknowledgment is published.  On success the ciphertext is persisted, its
checksum recomputed, the index updated, metrics recorded, and the ack
published. -/
def handle_sync_request (sha256 : Bytes → String) (msg : SyncMsg) (writeOk : Bool)
    (now : Nat) (s : ProviderState) : ProviderState × SyncResult :=
  match msg with
  | .malformed => (s, .errorLogged)
  | .metadataV2 _ _ => (s, .metadataOnly)
  | .fullSync src version checksum size encrypted_size data =>
      if writeOk then
        let path := replicaPath src
        let files' := (path, data) :: s.files.filter (fun p => p.1 ≠ path)
        let stored_checksum := sha256 data
        let info : ReplicaInfo :=
          { path := path
            version := version
            checksum := checksum
            encrypted_checksum := stored_checksum
            size := size
            encrypted_size := encrypted_size
            last_updated := now }
        let replicas' := (src, info) :: s.replicas.filter (fun p => p.1 ≠ src)
        let s' := record_storage_metrics
          { s with files := files', replicas := replicas' } encrypted_size
        (s', .acked { success := true, version := version, checksum := stored_checksum })
      else
        (s, .errorLogged)

/-- A decoded serve request (`serve_data_request`, lines 181-184): `malformed`
covers a JSON decode failure or a missing `device_id`/`requester` key (a
`KeyError` lands in the `except` block). -/
inductive ServeMsg where
  | malformed : ServeMsg
  | request (device_id : String) (requester : String) : ServeMsg
  deriving Repr, DecidableEq

/-- The success payload published on `apn.storage.response.<requester>`
(lines 206-214). -/
structure ServeResponse where
  success : Bool
  device_id : String
  version : Nat
  data : Bytes
  checksum : String
  provider_id : String
  deriving Repr, DecidableEq

/-- Observable outcome of one `serve_data_request` call. -/
inductive ServeResult where
  | errorLogged : ServeResult
  | noReplica (requester : String) : ServeResult
  | served (requester : String) (resp : ServeResponse) : ServeResult
  deriving Repr, DecidableEq

/-- Embedding of `serve_data_request` (lines 178-229): an unknown source device id yields
the explicit `{"error": "No replica available"}` response on the requester's
subject; a known one has its stored ciphertext read back, published, and the
transfer recorded against the contract. -/
def serve_data_request (s : ProviderState) (msg : ServeMsg) :
    ProviderState × ServeResult :=
  match msg with
  | .malformed => (s, .errorLogged)
  | .request device_id requester =>
      match s.replicas.lookup device_id with
      | none => (s, .noReplica requester)
      | some info =>
          match s.files.lookup info.path with
          | none => (s, .errorLogged)
          | some data =>
              let resp : ServeResponse :=
                { success := true
                  device_id := device_id
                  version := info.version
                  data := data
                  checksum := info.encrypted_checksum
                  provider_id := s.device_id }
              (record_transfer s info.encrypted_size, .served requester resp)

/-- One inbound message for the provider's run loop (lines 307-319): either a
sync request (with its write oracle and receipt time) or a serve request. -/
inductive ProviderEvent where
  | syncReq (msg : SyncMsg) (writeOk : Bool) (now : Nat) : ProviderEvent
  | serveReq (msg : ServeMsg) : ProviderEvent
  deriving Repr, DecidableEq

/-- State transition for one inbound message. -/
def stepProvider (sha256 : Bytes → String) (s : ProviderState) (e : ProviderEvent) :
    ProviderState :=
  match e with
  | .syncReq m w n => (handle_sync_request sha256 m w n s).1
  | .serveReq m => (serve_data_request s m).1

/-- Run the provider over a sequence of inbound messages. -/
def runProvider (sha256 : Bytes → String) (s : ProviderState)
    (events : List ProviderEvent) : ProviderState :=
  events.foldl (stepProvider sha256) s

/-- The source device a full-database sync message comes from, if any. -/
def SyncMsg.syncSource : SyncMsg → Option String
  | .fullSync src _ _ _ _ _ => some src
  | _ => none

/-- The source device an event syncs from, if it is a full-database sync. -/
def ProviderEvent.syncSource : ProviderEvent → Option String
  | .syncReq m _ _ => m.syncSource
  | .serveReq _ => none

/-- The `total_data_transferred_gb` counter of the contract with the given id
(0 if no such contract). -/
def contractTransferred (s : ProviderState) (cid : Nat) : ℚ :=
  ((s.contracts.find? (fun c => c.id == cid)).map
    (fun c => c.total_data_transferred_gb)).getD 0

/-- The `actual_storage_used_gb` counter of the contract with the given id
(0 if no such contract). -/
def contractStorage (s : ProviderState) (cid : Nat) : ℚ :=
  ((s.contracts.find? (fun c => c.id == cid)).map
    (fun c => c.actual_storage_used_gb)).getD 0

end StorageProviderServer

/-! ## Device registry (`device_registry.py`, `setup_device_registry.py`) -/

namespace DeviceRegistry

/-- A row of the `device_registry` table, restricted to the columns the two
registration paths and the staleness sweep touch.  Timestamps are integers in
minutes (ISO-8601 strings compare lexicographically in timestamp order, so an
ordered integer clock is a faithful model); columns a path leaves unset are
`none` (SQL `NULL`), and a `NULL` boolean column reads back as `false` under
the `= TRUE` filters the queries use. -/
structure DeviceRow where
  id : String
  owner_id : String
  device_name : String
  device_type : String
  apn_node_id : String
  public_key : String
  storage_capacity_gb : Nat
  serves_data : Bool
  accepts_storage_contracts : Bool
  is_online : Bool
  last_seen : Option Int
  last_heartbeat : Option Int
  hardware_info : Option String
  created_at : Option Int
  updated_at : Option Int
  deriving Repr, DecidableEq

/-- Embedding of `DeviceRegistry.register_device` (`device_registry.py`, lines 38-79): a
plain `INSERT` of a new row whose id is a freshly generated UUID (`freshId`
models `str(uuid.uuid4())`), returning the new table and the generated id. -/
def register_device (owner_id device_name device_type apn_node_id public_key : String)
    (storage_capacity_gb : Nat) (serves_data accepts_storage_contracts : Bool)
    (freshId : String) (now : Int) (table : List DeviceRow) :
    List DeviceRow × String :=
  let row : DeviceRow :=
    { id := freshId
      owner_id := owner_id
      device_name := device_name
      device_type := device_type
      apn_node_id := apn_node_id
      public_key := public_key
      storage_capacity_gb := storage_capacity_gb
      serves_data := serves_data
      accepts_storage_contracts := accepts_storage_contracts
      is_online := true
      last_seen := some now
      last_heartbeat := none
      hardware_info := none
      created_at := none
      updated_at := none }
  (table ++ [row], freshId)

/-- The row inserted by `setup_device_registry.register_device` when the device
id is new (`setup_device_registry.py`, lines 45-55). -/
def setupInsertRow (device_id owner_id device_name device_type apn_node_id : String)
    (hardware_info : Option String) (serves_data : Bool) (storage_capacity_gb : Nat)
    (now : Int) : DeviceRow :=
  { id := device_id
    owner_id := owner_id
    device_name := device_name
    device_type := device_type
    apn_node_id := apn_node_id
    public_key := "placeholder-key"
    storage_capacity_gb := storage_capacity_gb
    serves_data := serves_data
    accepts_storage_contracts := false
    is_online := true
    last_seen := none
    last_heartbeat := none
    hardware_info := hardware_info
    created_at := some now
    updated_at := some now }

/-- The in-place update `setup_device_registry.register_device` applies when
the device id already exists (lines 29-44): only the listed columns and
`updated_at` change. -/
def setupUpdateRow (r : DeviceRow) (owner_id device_name device_type apn_node_id : String)
    (hardware_info : Option String) (serves_data : Bool) (storage_capacity_gb : Nat)
    (now : Int) : DeviceRow :=
  { r with
    owner_id := owner_id
    device_name := device_name
    device_type := device_type
    apn_node_id := apn_node_id
    hardware_info := hardware_info
    serves_data := serves_data
    storage_capacity_gb := storage_capacity_gb
    updated_at := some now }

/-- Embedding of `setup_device_registry.register_device` (lines 21-55): check whether a row
with the given device id exists, then update it in place or insert a new
row. -/
def setupRegisterDevice (device_id owner_id device_name device_type apn_node_id : String)
    (hardware_info : Option String) (serves_data : Bool) (storage_capacity_gb : Nat)
    (now : Int) (table : List DeviceRow) : List DeviceRow :=
  if table.any (fun r => r.id == device_id) then
    table.map (fun r =>
      if r.id == device_id then
        setupUpdateRow r owner_id device_name device_type apn_node_id
          hardware_info serves_data storage_capacity_gb now
      else r)
  else
    table ++ [setupInsertRow device_id owner_id device_name device_type apn_node_id
      hardware_info serves_data storage_capacity_gb now]

/-- The `WHERE last_heartbeat < cutoff AND is_online = TRUE` filter of the
staleness sweep; a `NULL` heartbeat never satisfies the comparison. -/
def isStale (cutoff : Int) (r : DeviceRow) : Bool :=
  (match r.last_heartbeat with
   | some h => decide (h < cutoff)
   | none => false) && r.is_online

/-- Embedding of `check_stale_devices` (`device_registry.py`, lines 190-209): flip every
online device whose `last_heartbeat` is older than `now - timeout_minutes` to
offline, returning the updated table and the `UPDATE` rowcount. -/
def check_stale_devices (now timeout_minutes : Int) (table : List DeviceRow) :
    List DeviceRow × Nat :=
  let cutoff := now - timeout_minutes
  (table.map (fun r => if isStale cutoff r then { r with is_online := false } else r),
   (table.filter (isStale cutoff)).length)

/-- Capability derivation of the CLI registration path
(`device_registry.py`, line 283). -/
def cliStorageCapacity (device_type : String) : Nat :=
  if device_type == "storage_provider" then 100 else 0

/-- Capability derivation of the CLI registration path (line 284). -/
def cliServesData (device_type : String) : Bool :=
  device_type == "always_on" || device_type == "storage_provider"

/-- Capability derivation of the CLI registration path (line 285). -/
def cliAcceptsContracts (device_type : String) : Bool :=
  device_type == "storage_provider"

end DeviceRegistry

/-! ## Replication client (`storage_replication_client.py`) -/

namespace StorageReplicationClient

/-- The `data_replication_state` row written by `_update_replication_state`
(`storage_replication_client.py`, lines 221-246). -/
structure ReplicationStateRow where
  id : String
  source_device_id : String
  destination_device_id : String
  data_owner_id : Option String
  data_type : String
  last_sync_timestamp : Nat
  last_sync_version : Nat
  current_version : Nat
  sync_status : String
  source_checksum : String
  deriving Repr, DecidableEq

/-- A client instance's state: identity plus the replication bookkeeping
(`self.last_sync_version`, `self.is_syncing`, and the single
`data_replication_state` row keyed by `device_provider`). -/
structure ClientState where
  device_id : String
  provider_device_id : String
  last_sync_version : Nat
  is_syncing : Bool
  repl_state : Option ReplicationStateRow
  deriving Repr, DecidableEq

/-- Embedding of `__init__` (lines 40-59): bookkeeping starts at version 0, not syncing. -/
def initClient (device_id provider_device_id : String) : ClientState :=
  { device_id := device_id
    provider_device_id := provider_device_id
    last_sync_version := 0
    is_syncing := false
    repl_state := none }

/-- Environment of one `sync_to_provider` run: oracles for the fallible steps
(connect, reading version/checksum/size from the local database, publish), the
values the local database yields (`get_db_version` returns 0 when all
`updated_at` columns are `NULL`), and whether a message with truthy `success`
arrives on the ack subject within the 30-second wait. -/
structure SyncEnv where
  connectOk : Bool
  readOk : Bool
  dbVersion : Nat
  dbChecksum : String
  dbSize : Nat
  publishOk : Bool
  ackSuccess : Bool
  now : Nat
  deriving Repr, DecidableEq

/-- Observable outcome of one `sync_to_provider` run. -/
inductive SyncOutcome where
  | alreadySyncing : SyncOutcome
  | noop : SyncOutcome
  | synced : SyncOutcome
  | noAck : SyncOutcome
  | errorLogged : SyncOutcome
  deriving Repr, DecidableEq

/-- Result of one `sync_to_provider` run: the client state afterwards, the
outcome, and how many sync-request messages were published on
`apn.storage.sync.<provider>`. -/
structure SyncRun where
  state : ClientState
  outcome : SyncOutcome
  publishCount : Nat
  deriving Repr, DecidableEq

/-- Embedding of `sync_to_provider` (lines 120-219).  Refuses to run while `is_syncing`;
short-circuits when the computed version equals `last_sync_version`; otherwise
publishes once and waits up to 30 s for a positive acknowledgment.  Only on
acknowledgment does it update `last_sync_version` and write the
`data_replication_state` row; exceptions are caught, logged, and leave the
bookkeeping unchanged (`is_syncing` always reset in `finally`). -/
def sync_to_provider (c : ClientState) (env : SyncEnv) : SyncRun :=
  if c.is_syncing then
    { state := c, outcome := .alreadySyncing, publishCount := 0 }
  else if env.connectOk = false then
    { state := c, outcome := .errorLogged, publishCount := 0 }
  else if env.readOk = false then
    { state := c, outcome := .errorLogged, publishCount := 0 }
  else if env.dbVersion = c.last_sync_version then
    { state := c, outcome := .noop, publishCount := 0 }
  else if env.publishOk = false then
    { state := c, outcome := .errorLogged, publishCount := 0 }
  else if env.ackSuccess then
    { state :=
        { c with
          last_sync_version := env.dbVersion
          repl_state := some
            { id := c.device_id ++ "_" ++ c.provider_device_id
              source_device_id := c.device_id
              destination_device_id := c.provider_device_id
              data_owner_id := none
              data_type := "full_db"
              last_sync_timestamp := env.now
              last_sync_version := env.dbVersion
              current_version := env.dbVersion
              sync_status := "in_sync"
              source_checksum := env.dbChecksum } }
      outcome := .synced
      publishCount := 1 }
  else
    { state := c, outcome := .noAck, publishCount := 1 }

/-- Two consecutive `sync_to_provider` calls, threading the client state. -/
def sync_twice (c : ClientState) (e1 e2 : SyncEnv) : SyncRun × SyncRun :=
  let r1 := sync_to_provider c e1
  (r1, sync_to_provider r1.state e2)

/-- Total number of sync-request publishes across two consecutive calls. -/
def publishes_of_two (c : ClientState) (e1 e2 : SyncEnv) : Nat :=
  (sync_twice c e1 e2).1.publishCount + (sync_twice c e1 e2).2.publishCount

end StorageReplicationClient

/-! ## Chunked sync variant (`apn_data_sync_sender.py`, `apn_data_sync_receiver.py`) -/

namespace APNDataSync

/-- Constant `CHUNK_SIZE = 256 * 1024` (both sender and receiver, line 32/33). -/
def CHUNK_SIZE : Nat := 256 * 1024

/-- The sender's declared chunk count
(`calculate_metadata`, `apn_data_sync_sender.py`, line 71): ceiling division of
the file size by the chunk size. -/
def calcTotalChunks (file_size chunk_size : Nat) : Nat :=
  (file_size + chunk_size - 1) / chunk_size

/-- The metadata a sync-request message declares
(`calculate_metadata`, lines 73-83, identity/timestamp fields omitted). -/
structure TransferMetadata where
  db_name : String
  total_size : Nat
  total_chunks : Nat
  chunk_size : Nat
  checksum : String
  deriving Repr, DecidableEq

/-- Embedding of `APNDataSyncSender.calculate_metadata` (lines 59-91) over a file of the
given name and contents. -/
def calculate_metadata (sha256 : Bytes → String) (db_name : String) (contents : Bytes) :
    TransferMetadata :=
  { db_name := db_name
    total_size := contents.length
    total_chunks := calcTotalChunks contents.length CHUNK_SIZE
    chunk_size := CHUNK_SIZE
    checksum := sha256 contents }

/-- Receiver state (`APNDataSyncReceiver.__init__`, lines 45-49): the chunk
map (index ↦ bytes, one entry per distinct index), the declared metadata, and
the temp path, both unset until a sync request arrives. -/
structure ReceiverState where
  chunks : List (Nat × Bytes)
  metadata : Option TransferMetadata
  temp_db_path : Option String
  deriving Repr, DecidableEq

/-- Insert-or-replace into the chunk map (`self.chunks[chunk_num] = data`). -/
def storeChunk (chunks : List (Nat × Bytes)) (chunk_num : Nat) (data : Bytes) :
    List (Nat × Bytes) :=
  (chunk_num, data) :: chunks.filter (fun p => p.1 ≠ chunk_num)

/-- Embedding of `handle_sync_request` (receiver, lines 70-104): store the metadata, reset
the chunk map, set the temp path. -/
def handle_sync_request (md : TransferMetadata) (_st : ReceiverState) : ReceiverState :=
  { chunks := []
    metadata := some md
    temp_db_path := some ("/tmp/apn_sync/" ++ md.db_name) }

/-- Embedding of `handle_chunk` (lines 106-137): recompute the per-chunk hash; on mismatch
drop the chunk (logged, not stored, no ack), otherwise store it under its
index. -/
def handle_chunk (sha256 : Bytes → String) (chunk_num : Nat) (data : Bytes)
    (chunk_hash : String) (st : ReceiverState) : ReceiverState :=
  if sha256 data = chunk_hash then
    { st with chunks := storeChunk st.chunks chunk_num data }
  else
    st

/-- Insertion into a sorted list of indices. -/
def insertSorted (n : Nat) : List Nat → List Nat
  | [] => [n]
  | m :: ms => if n ≤ m then n :: m :: ms else m :: insertSorted n ms

/-- Sort a list of chunk indices ascending (`sorted(self.chunks.keys())`). -/
def sortKeys (l : List Nat) : List Nat := l.foldr insertSorted []

/-- Reassembly in ascending index order (`handle_complete`, lines 147-149):
concatenate the stored chunks sorted by index. -/
def reconstruct (chunks : List (Nat × Bytes)) : Bytes :=
  ((sortKeys (chunks.map Prod.fst)).map
    (fun i => (chunks.lookup i).getD [])).flatten

/-- Observable outcome of one `handle_complete` call: an exception caught and
logged (e.g. no sync request was ever received, so the temp path/metadata are
unset), a whole-file checksum mismatch (no import), or a successful import of
the reassembled blob. -/
inductive CompleteOutcome where
  | errorLogged : CompleteOutcome
  | checksumMismatch : CompleteOutcome
  | imported (blob : Bytes) : CompleteOutcome
  deriving Repr, DecidableEq

/-- Embedding of `handle_complete` (lines 139-180): reassemble whatever chunks are present
in index order, recompute the whole-file checksum, and import exactly when it
equals the declared checksum.  No chunk-count comparison is performed. -/
def handle_complete (sha256 : Bytes → String) (st : ReceiverState) :
    ReceiverState × CompleteOutcome :=
  match st.temp_db_path, st.metadata with
  | some _, some md =>
      let blob := reconstruct st.chunks
      if sha256 blob = md.checksum then
        (st, .imported blob)
      else
        (st, .checksumMismatch)
  | _, _ => (st, .errorLogged)

/-- Number of distinct chunk indices received (the chunk map keeps one entry
per index). -/
def chunkCount (st : ReceiverState) : Nat := st.chunks.length

end APNDataSync

/-! ## Helper lemmas -/

namespace StorageProviderServer

theorem record_storage_metrics_files (s : ProviderState) (esz : Nat) :
    (record_storage_metrics s esz).files = s.files := by
  unfold record_storage_metrics
  cases findActiveContract s <;> rfl

theorem record_storage_metrics_replicas (s : ProviderState) (esz : Nat) :
    (record_storage_metrics s esz).replicas = s.replicas := by
  unfold record_storage_metrics
  cases findActiveContract s <;> rfl

theorem record_transfer_replicas (s : ProviderState) (b : Nat) :
    (record_transfer s b).replicas = s.replicas := by
  unfold record_transfer
  cases findActiveContract s <;> rfl

theorem serve_replicas_eq (s : ProviderState) (m : ServeMsg) :
    (serve_data_request s m).1.replicas = s.replicas := by
  cases m with
  | malformed => rfl
  | request did req =>
      cases hl : s.replicas.lookup did with
      | none => simp [serve_data_request, hl]
      | some info =>
          cases hf : s.files.lookup info.path with
          | none => simp [serve_data_request, hl, hf]
          | some data => simp [serve_data_request, hl, hf, record_transfer_replicas]

theorem lookup_filter_none {α β : Type} [BEq α] (l : List (α × β)) (p : α × β → Bool)
    (a : α) (h : l.lookup a = none) : (l.filter p).lookup a = none := by
  induction l with
  | nil => simp
  | cons kv l ih =>
      rw [List.lookup] at h
      cases hk : (a == kv.1) with
      | true => rw [hk] at h; exact absurd h (by simp)
      | false =>
          rw [hk] at h
          by_cases hp : p kv
          · rw [List.filter_cons_of_pos hp, List.lookup, hk]
            exact ih h
          · rw [List.filter_cons_of_neg hp]
            exact ih h

theorem step_lookup_none (sha256 : Bytes → String) (s : ProviderState)
    (e : ProviderEvent) (d : String)
    (hs : e.syncSource ≠ some d) (h : s.replicas.lookup d = none) :
    (stepProvider sha256 s e).replicas.lookup d = none := by
  cases e with
  | serveReq m => rw [stepProvider, serve_replicas_eq]; exact h
  | syncReq m w n =>
      cases m with
      | malformed => exact h
      | metadataV2 fd pj => exact h
      | fullSync src v ck sz esz data =>
          have hne : src ≠ d := by
            intro he
            exact hs (by simp [ProviderEvent.syncSource, SyncMsg.syncSource, he])
          cases w with
          | false => exact h
          | true =>
              show ((record_storage_metrics _ esz).replicas.lookup d) = none
              rw [record_storage_metrics_replicas]
              rw [List.lookup]
              have : (d == src) = false := by
                simp only [beq_eq_false_iff_ne]
                exact fun hd => hne hd.symm
              rw [this]
              exact lookup_filter_none _ _ _ h

theorem runProvider_lookup_none (sha256 : Bytes → String) (events : List ProviderEvent)
    (s : ProviderState) (d : String)
    (hs : ∀ e ∈ events, e.syncSource ≠ some d) (h : s.replicas.lookup d = none) :
    (runProvider sha256 s events).replicas.lookup d = none := by
  induction events generalizing s with
  | nil => exact h
  | cons e es ih =>
      exact ih (stepProvider sha256 s e)
        (fun e' he' => hs e' (List.mem_cons_of_mem e he'))
        (step_lookup_none sha256 s e d (hs e (List.mem_cons_self e es)) h)

theorem find?_map_transferred_le (l : List Contract) (u : Contract → Contract)
    (hid : ∀ c, (u c).id = c.id)
    (hmono : ∀ c, c.total_data_transferred_gb ≤ (u c).total_data_transferred_gb)
    (cid : Nat) :
    ((l.find? (fun c => c.id == cid)).map (fun c => c.total_data_transferred_gb)).getD 0 ≤
      (((l.map u).find? (fun c => c.id == cid)).map
        (fun c => c.total_data_transferred_gb)).getD 0 := by
  induction l with
  | nil => simp
  | cons c cs ih =>
      rw [List.map_cons, List.find?_cons, List.find?_cons]
      simp only [hid c]
      cases hc : (c.id == cid) with
      | true => simpa using hmono c
      | false => simpa using ih

theorem find?_map_transferred_eq (l : List Contract) (u : Contract → Contract)
    (hid : ∀ c, (u c).id = c.id)
    (heq : ∀ c, (u c).total_data_transferred_gb = c.total_data_transferred_gb)
    (cid : Nat) :
    (((l.map u).find? (fun c => c.id == cid)).map
        (fun c => c.total_data_transferred_gb)).getD 0 =
      ((l.find? (fun c => c.id == cid)).map (fun c => c.total_data_transferred_gb)).getD 0 := by
  induction l with
  | nil => simp
  | cons c cs ih =>
      rw [List.map_cons, List.find?_cons, List.find?_cons]
      simp only [hid c]
      cases hc : (c.id == cid) with
      | true => simpa using heq c
      | false => simpa using ih

theorem contractTransferred_record_storage (s : ProviderState) (esz : Nat) (cid : Nat) :
    contractTransferred (record_storage_metrics s esz) cid = contractTransferred s cid := by
  unfold record_storage_metrics
  cases findActiveContract s with
  | none => rfl
  | some contract =>
      unfold contractTransferred
      exact find?_map_transferred_eq s.contracts _
        (fun c => by split <;> rfl)
        (fun c => by split <;> rfl) cid

theorem contractTransferred_record_transfer_le (s : ProviderState) (b : Nat) (cid : Nat) :
    contractTransferred s cid ≤ contractTransferred (record_transfer s b) cid := by
  unfold record_transfer
  cases findActiveContract s with
  | none => exact le_refl _
  | some contract =>
      unfold contractTransferred
      apply find?_map_transferred_le s.contracts _
        (fun c => by split <;> rfl)
      intro c
      split
      · show c.total_data_transferred_gb ≤
          c.total_data_transferred_gb + (b : ℚ) / 1024 / 1024 / 1024
        have hb : (0 : ℚ) ≤ (b : ℚ) / 1024 / 1024 / 1024 := by positivity
        linarith
      · exact le_refl _

theorem contractTransferred_contracts_eq (s t : ProviderState) (cid : Nat)
    (h : s.contracts = t.contracts) :
    contractTransferred s cid = contractTransferred t cid := by
  unfold contractTransferred
  rw [h]

theorem contractTransferred_step_le (sha256 : Bytes → String) (s : ProviderState)
    (e : ProviderEvent) (cid : Nat) :
    contractTransferred s cid ≤ contractTransferred (stepProvider sha256 s e) cid := by
  cases e with
  | syncReq m w n =>
      cases m with
      | malformed => exact le_refl _
      | metadataV2 fd pj => exact le_refl _
      | fullSync src v ck sz esz data =>
          cases w with
          | false => exact le_refl _
          | true =>
              simp only [stepProvider, handle_sync_request, if_true]
              rw [contractTransferred_record_storage]
              exact le_of_eq (contractTransferred_contracts_eq s _ cid rfl)
  | serveReq m =>
      cases m with
      | malformed => exact le_refl _
      | request did req =>
          cases hl : s.replicas.lookup did with
          | none => simp [stepProvider, serve_data_request, hl]
          | some info =>
              cases hf : s.files.lookup info.path with
              | none => simp [stepProvider, serve_data_request, hl, hf]
              | some data =>
                  simp only [stepProvider, serve_data_request, hl, hf]
                  exact contractTransferred_record_transfer_le s info.encrypted_size cid

end StorageProviderServer

/-! ## Claim theorems: storage-provider service -/

namespace StorageProviderServer

/-- C1: on the full-database sync path, `handle_sync_request` publishes an
acknowledgment with `success = true` carrying the recomputed ciphertext
checksum, and only after the ciphertext bytes are persisted under the
sender-keyed path and the replica index updated; a decode failure, a failed
file write, and the metadata-only branch all publish no acknowledgment (the
failure branches are merely logged). -/
theorem sync_ack_only_after_persist (sha256 : Bytes → String) (src : String)
    (v : Nat) (ck : String) (sz esz : Nat) (data : Bytes) (now : Nat) (s : ProviderState) :
    (handle_sync_request sha256 (.fullSync src v ck sz esz data) true now s).2
        = .acked { success := true, version := v, checksum := sha256 data }
    ∧ (handle_sync_request sha256 (.fullSync src v ck sz esz data) true now s).1.files.lookup
        (replicaPath src) = some data
    ∧ (handle_sync_request sha256 (.fullSync src v ck sz esz data) true now s).1.replicas.lookup
        src = some { path := replicaPath src, version := v, checksum := ck,
                     encrypted_checksum := sha256 data, size := sz, encrypted_size := esz,
                     last_updated := now }
    ∧ (handle_sync_request sha256 (.fullSync src v ck sz esz data) false now s)
        = (s, .errorLogged)
    ∧ (∀ w, handle_sync_request sha256 .malformed w now s = (s, .errorLogged))
    ∧ (∀ w fd pj, handle_sync_request sha256 (.metadataV2 fd pj) w now s
        = (s, .metadataOnly)) := by
  refine ⟨rfl, ?_, ?_, rfl, fun w => rfl, fun w fd pj => rfl⟩
  · simp only [handle_sync_request, if_true]
    rw [record_storage_metrics_files]
    simp [List.lookup_cons]
  · simp only [handle_sync_request, if_true]
    rw [record_storage_metrics_replicas]
    simp [List.lookup_cons]

/-- C3 counterexample: a contract showing 2 GB used whose client then syncs a
1 GiB ciphertext has its `actual_storage_used_gb` counter overwritten downward
by `handle_sync_request` — the storage counter is not monotonically
non-decreasing. -/
theorem storage_counter_decreases_on_smaller_sync :
    contractStorage
      (stepProvider (fun _ => "h")
        ⟨"prov", [], [], [⟨1, "prov", "active", 2, 0, 0⟩]⟩
        (.syncReq (.fullSync "client" 1 "ck" 100 1073741824 [0]) true 0)) 1 <
      contractStorage ⟨"prov", [], [], [⟨1, "prov", "active", 2, 0, 0⟩]⟩ 1 := by
  norm_num [stepProvider, handle_sync_request, record_storage_metrics, findActiveContract,
    contractStorage, List.find?]

/-- C3 (amended): across any sequence of `handle_sync_request` and
`serve_data_request` operations, every contract's cumulative
`total_data_transferred_gb` counter is monotonically non-decreasing; the
`actual_storage_used_gb` counter is instead overwritten with the latest sync's
ciphertext size and can decrease (see the counterexample). -/
theorem transfer_counter_monotone (sha256 : Bytes → String) (s : ProviderState)
    (events : List ProviderEvent) (cid : Nat) :
    contractTransferred s cid ≤ contractTransferred (runProvider sha256 s events) cid := by
  induction events generalizing s with
  | nil => exact le_refl _
  | cons e es ih =>
      exact le_trans (contractTransferred_step_le sha256 s e cid)
        (ih (stepProvider sha256 s e))

/-- C9: a serve request naming a source device id with no replica on record
yields exactly the explicit "No replica available" error response on the
requester's scoped subject, with the provider state unchanged (no data
published, no transfer recorded). -/
theorem serve_miss_explicit_error (s : ProviderState) (device_id requester : String)
    (h : s.replicas.lookup device_id = none) :
    serve_data_request s (.request device_id requester) = (s, .noReplica requester) := by
  simp [serve_data_request, h]

/-- C9 witness: a provider holding no replicas answers a serve request for
device "mobile" with the explicit error. -/
theorem serve_miss_explicit_error_witness :
    serve_data_request ⟨"prov", [], [("mobile.db.encrypted", [1, 2])], []⟩
        (.request "mobile" "req")
      = (⟨"prov", [], [("mobile.db.encrypted", [1, 2])], []⟩, .noReplica "req") :=
  serve_miss_explicit_error _ "mobile" "req" rfl

/-- C10: the replica index starts empty at construction and is populated only
by full-database sync requests, so as long as no sync from device `d` has been
processed since the provider started, a serve request for `d` yields the
"No replica available" error even when `d`'s encrypted replica file already
exists on disk at the storage path. -/
theorem serve_before_resync_misses (sha256 : Bytes → String) (deviceId : String)
    (disk : List (String × Bytes)) (contracts : List Contract)
    (events : List ProviderEvent) (d requester : String) (b : Bytes)
    (_hfile : (replicaPath d, b) ∈ disk)
    (hnosync : ∀ e ∈ events, e.syncSource ≠ some d) :
    (serve_data_request (runProvider sha256 (init deviceId disk contracts) events)
        (.request d requester)).2 = .noReplica requester := by
  have hnone : (runProvider sha256 (init deviceId disk contracts) events).replicas.lookup d
      = none :=
    runProvider_lookup_none sha256 events _ d hnosync rfl
  simp [serve_data_request, hnone]

/-- C10 witness: with device "m1"'s replica file on disk and a run that syncs
only device "other" and serves one unrelated request, serving "m1" still
reports no replica. -/
theorem serve_before_resync_misses_witness :
    (serve_data_request
        (runProvider (fun _ => "h")
          (init "prov" [("m1.db.encrypted", [9, 9])] [])
          [.syncReq (.fullSync "other" 1 "ck" 2 2 [3, 4]) true 5,
           .serveReq (.request "x" "y")])
        (.request "m1" "req")).2 = .noReplica "req" :=
  serve_before_resync_misses (fun _ => "h") "prov" [("m1.db.encrypted", [9, 9])] []
    [.syncReq (.fullSync "other" 1 "ck" 2 2 [3, 4]) true 5,
     .serveReq (.request "x" "y")] "m1" "req" [9, 9]
    (by decide) (by decide)

end StorageProviderServer

/-! ## Claim theorems: device registry -/

namespace DeviceRegistry

theorem map_update_fresh (table : List DeviceRow) (device_id : String)
    (u : DeviceRow → DeviceRow)
    (hfresh : ∀ r ∈ table, (r.id == device_id) = false) :
    table.map (fun r => if r.id == device_id then u r else r) = table := by
  induction table with
  | nil => rfl
  | cons r rs ih =>
      rw [List.map_cons, if_neg (by simp [hfresh r (List.mem_cons_self r rs)]),
        ih (fun r' h => hfresh r' (List.mem_cons_of_mem r h))]

theorem filter_fresh_nil (table : List DeviceRow) (device_id : String)
    (hfresh : ∀ r ∈ table, (r.id == device_id) = false) :
    table.filter (fun r => r.id == device_id) = [] := by
  induction table with
  | nil => rfl
  | cons r rs ih =>
      rw [List.filter_cons_of_neg (by simp [hfresh r (List.mem_cons_self r rs)]),
        ih (fun r' h => hfresh r' (List.mem_cons_of_mem r h))]

theorem filter_length_mono {α : Type} (l : List α) (p q : α → Bool)
    (h : ∀ x ∈ l, p x = true → q x = true) :
    (l.filter p).length ≤ (l.filter q).length := by
  induction l with
  | nil => exact le_refl _
  | cons a l ih =>
      have ih' := ih (fun x hx => h x (List.mem_cons_of_mem a hx))
      by_cases hp : p a = true
      · rw [List.filter_cons_of_pos hp,
          List.filter_cons_of_pos (h a (List.mem_cons_self a l) hp)]
        exact Nat.succ_le_succ ih'
      · rw [List.filter_cons_of_neg (by simpa using hp)]
        by_cases hq : q a = true
        · rw [List.filter_cons_of_pos hq]
          exact le_trans ih' (Nat.le_succ _)
        · rw [List.filter_cons_of_neg (by simpa using hq)]
          exact ih'

/-- C2 counterexample: `DeviceRegistry.register_device` is a plain `INSERT`
with a freshly generated device id, so registering the same device a second
time stores a second row instead of updating the first — registration through
this entry point is not insert-or-update and not idempotent. -/
theorem register_device_duplicates_rows :
    ((register_device "owner" "phone" "mobile" "apn1" "pk" 0 false false "id2" 0
        (register_device "owner" "phone" "mobile" "apn1" "pk" 0 false false
          "id1" 0 []).1).1).length = 2
    ∧ ((register_device "owner" "phone" "mobile" "apn1" "pk" 0 false false "id2" 0
        (register_device "owner" "phone" "mobile" "apn1" "pk" 0 false false
          "id1" 0 []).1).1).map (fun r => r.device_name) = ["phone", "phone"] := by
  decide

/-- C2 (amended): insert-or-update keyed by device id is implemented by
`setup_device_registry.register_device` (a read-then-write, not a single
upsert statement): starting from a table holding no row for the id,
registering the same device id twice leaves exactly one row for that id — the
first call's insert, updated in place by the second call — and grows the table
by one row only. -/
theorem setup_register_upsert (device_id o1 n1 ty1 apn1 : String) (hw1 : Option String)
    (sd1 : Bool) (cap1 : Nat) (now1 : Int) (o2 n2 ty2 apn2 : String)
    (hw2 : Option String) (sd2 : Bool) (cap2 : Nat) (now2 : Int)
    (table : List DeviceRow)
    (hfresh : ∀ r ∈ table, (r.id == device_id) = false) :
    (setupRegisterDevice device_id o2 n2 ty2 apn2 hw2 sd2 cap2 now2
        (setupRegisterDevice device_id o1 n1 ty1 apn1 hw1 sd1 cap1 now1 table)).length
      = table.length + 1
    ∧ (setupRegisterDevice device_id o2 n2 ty2 apn2 hw2 sd2 cap2 now2
        (setupRegisterDevice device_id o1 n1 ty1 apn1 hw1 sd1 cap1 now1 table)).filter
          (fun r => r.id == device_id)
      = [setupUpdateRow (setupInsertRow device_id o1 n1 ty1 apn1 hw1 sd1 cap1 now1)
          o2 n2 ty2 apn2 hw2 sd2 cap2 now2] := by
  have hany1 : table.any (fun r => r.id == device_id) = false := by
    rw [List.any_eq_false]
    intro r hr
    simp [hfresh r hr]
  have ht1 : setupRegisterDevice device_id o1 n1 ty1 apn1 hw1 sd1 cap1 now1 table
      = table ++ [setupInsertRow device_id o1 n1 ty1 apn1 hw1 sd1 cap1 now1] := by
    rw [setupRegisterDevice, if_neg (by simp [hany1])]
  have hany2 : (table ++ [setupInsertRow device_id o1 n1 ty1 apn1 hw1 sd1 cap1 now1]).any
      (fun r => r.id == device_id) = true := by
    simp [List.any_append, setupInsertRow]
  have ht2 : setupRegisterDevice device_id o2 n2 ty2 apn2 hw2 sd2 cap2 now2
        (table ++ [setupInsertRow device_id o1 n1 ty1 apn1 hw1 sd1 cap1 now1])
      = table ++ [setupUpdateRow (setupInsertRow device_id o1 n1 ty1 apn1 hw1 sd1 cap1 now1)
          o2 n2 ty2 apn2 hw2 sd2 cap2 now2] := by
    rw [setupRegisterDevice, if_pos (by simp [hany2]), List.map_append,
      map_update_fresh table device_id _ hfresh]
    simp [setupInsertRow]
  rw [ht1, ht2]
  constructor
  · simp
  · rw [List.filter_append, filter_fresh_nil table device_id hfresh]
    simp [setupUpdateRow, setupInsertRow]

/-- C2 witness: concrete double registration of device id "dev-1" on an empty
table yields one row carrying the second call's attributes. -/
theorem setup_register_upsert_witness :
    (setupRegisterDevice "dev-1" "o2" "n2" "always_on" "apn2" none false 7 20
        (setupRegisterDevice "dev-1" "o1" "n1" "mobile" "apn1" none true 3 10 [])).length
      = 0 + 1
    ∧ (setupRegisterDevice "dev-1" "o2" "n2" "always_on" "apn2" none false 7 20
        (setupRegisterDevice "dev-1" "o1" "n1" "mobile" "apn1" none true 3 10 [])).filter
          (fun r => r.id == "dev-1")
      = [setupUpdateRow (setupInsertRow "dev-1" "o1" "n1" "mobile" "apn1" none true 3 10)
          "o2" "n2" "always_on" "apn2" none false 7 20] := by
  have h := setup_register_upsert "dev-1" "o1" "n1" "mobile" "apn1" none true 3 10
    "o2" "n2" "always_on" "apn2" none false 7 20 []
    (fun r hr => absurd hr (List.not_mem_nil r))
  simpa using h

/-- C7: one staleness sweep sets every currently-online device whose
`last_heartbeat` is older than the cutoff offline and counts it (so the
returned count is at least 1 when such a device exists); a device whose
heartbeat is newer than the cutoff is left in the table untouched; and the
count never exceeds the number of online devices, so already-offline devices
are not counted. -/
theorem sweep_stale_behavior (now timeout_minutes : Int) (table : List DeviceRow) :
    (∀ r ∈ table, ∀ h, r.last_heartbeat = some h → h < now - timeout_minutes →
      r.is_online = true →
      { r with is_online := false } ∈ (check_stale_devices now timeout_minutes table).1
        ∧ 1 ≤ (check_stale_devices now timeout_minutes table).2)
    ∧ (∀ r ∈ table, ∀ h, r.last_heartbeat = some h → now - timeout_minutes < h →
        r ∈ (check_stale_devices now timeout_minutes table).1)
    ∧ (check_stale_devices now timeout_minutes table).2
        ≤ (table.filter (fun r => r.is_online)).length := by
  refine ⟨?_, ?_, ?_⟩
  · intro r hr h hh hlt hon
    have hstale : isStale (now - timeout_minutes) r = true := by
      simp [isStale, hh, hlt, hon]
    constructor
    · exact List.mem_map.mpr ⟨r, hr, by simp [check_stale_devices, hstale]⟩
    · have hmem : r ∈ table.filter (isStale (now - timeout_minutes)) :=
        List.mem_filter.mpr ⟨hr, hstale⟩
      exact Nat.succ_le_of_lt (List.length_pos.mpr (List.ne_nil_of_mem hmem))
  · intro r hr h hh hgt
    have hstale : isStale (now - timeout_minutes) r = false := by
      simp [isStale, hh]
      intro hlt
      exact absurd hlt (not_lt_of_gt hgt)
    exact List.mem_map.mpr ⟨r, hr, by simp [hstale]⟩
  · exact filter_length_mono table _ _ (fun r _ hs => by
      simp [isStale] at hs
      exact hs.2)

/-- C7 witness: with the clock at 100 and a 5-minute timeout, a device with
heartbeat 10 and online goes offline and is counted, while a device with
heartbeat 99 is untouched. -/
theorem sweep_stale_behavior_witness :
    ((⟨"d1", "o", "n", "mobile", "a", "pk", 0, false, false, false, some 0, some 10,
        none, none, none⟩ : DeviceRow)
      ∈ (check_stale_devices 100 5
          [⟨"d1", "o", "n", "mobile", "a", "pk", 0, false, false, true, some 0, some 10,
            none, none, none⟩,
           ⟨"d2", "o", "n", "mobile", "a", "pk", 0, false, false, true, some 0, some 99,
            none, none, none⟩]).1
      ∧ 1 ≤ (check_stale_devices 100 5
          [⟨"d1", "o", "n", "mobile", "a", "pk", 0, false, false, true, some 0, some 10,
            none, none, none⟩,
           ⟨"d2", "o", "n", "mobile", "a", "pk", 0, false, false, true, some 0, some 99,
            none, none, none⟩]).2)
    ∧ (⟨"d2", "o", "n", "mobile", "a", "pk", 0, false, false, true, some 0, some 99,
        none, none, none⟩ : DeviceRow)
      ∈ (check_stale_devices 100 5
          [⟨"d1", "o", "n", "mobile", "a", "pk", 0, false, false, true, some 0, some 10,
            none, none, none⟩,
           ⟨"d2", "o", "n", "mobile", "a", "pk", 0, false, false, true, some 0, some 99,
            none, none, none⟩]).1 := by
  constructor
  · exact (sweep_stale_behavior 100 5 _).1
      ⟨"d1", "o", "n", "mobile", "a", "pk", 0, false, false, true, some 0, some 10,
        none, none, none⟩ (by decide) 10 rfl (by decide) rfl
  · exact (sweep_stale_behavior 100 5 _).2.1
      ⟨"d2", "o", "n", "mobile", "a", "pk", 0, false, false, true, some 0, some 99,
        none, none, none⟩ (by decide) 99 rfl (by decide)

/-- C8 counterexample: `register_device` stores the capability flags exactly
as passed, so a call with `serves_data = false` and
`accepts_storage_contracts = true` persists a row violating the claimed
invariant that accepting storage contracts implies serving data. -/
theorem register_accepts_without_serving :
    ((register_device "o" "n" "mobile" "a" "pk" 0 false true "id1" 0 []).1.map
      (fun r => (r.accepts_storage_contracts, r.serves_data))) = [(true, false)] := by
  decide

/-- C8 (amended): `register_device` itself does not enforce the implication,
but every registration whose flags come from the CLI capability derivation
(`accepts_storage_contracts` exactly for storage providers, `serves_data` for
always-on devices and storage providers) preserves the invariant
`accepts_storage_contracts → serves_data` on the table. -/
theorem register_cli_invariant (owner_id device_name device_type apn_node_id : String)
    (public_key freshId : String) (now : Int) (table : List DeviceRow)
    (hinv : ∀ r ∈ table, r.accepts_storage_contracts = true → r.serves_data = true) :
    ∀ r ∈ (register_device owner_id device_name device_type apn_node_id public_key
        (cliStorageCapacity device_type) (cliServesData device_type)
        (cliAcceptsContracts device_type) freshId now table).1,
      r.accepts_storage_contracts = true → r.serves_data = true := by
  intro r hr hacc
  simp only [register_device] at hr
  rcases List.mem_append.mp hr with h | h
  · exact hinv r h hacc
  · have hre : r = _ := List.mem_singleton.mp h
    subst hre
    simp only at hacc
    simp only [cliServesData]
    simp [cliAcceptsContracts] at hacc
    simp [hacc]

/-- C8 witness: registering a storage provider through the CLI derivation
stores a row that serves data. -/
theorem register_cli_invariant_witness :
    (⟨"id1", "o", "n", "storage_provider", "a", "pk", 100, true, true, true,
      some 0, none, none, none, none⟩ : DeviceRow).serves_data = true :=
  register_cli_invariant "o" "n" "storage_provider" "a" "pk" "id1" 0 []
    (fun r hr => absurd hr (List.not_mem_nil r))
    ⟨"id1", "o", "n", "storage_provider", "a", "pk", 100, true, true, true,
      some 0, none, none, none, none⟩ (by decide) (by decide)

end DeviceRegistry

/-! ## Claim theorems: replication client -/

namespace StorageReplicationClient

/-- C5 counterexample: a fresh client (`last_sync_version = 0`) over a
database whose computed version is 0 (all `updated_at` columns `NULL`) calls
`sync_to_provider` twice with the version unchanged between the calls; both
calls short-circuit on the matching version and zero sync-request messages are
published — not exactly one. -/
theorem two_noop_syncs_publish_nothing :
    publishes_of_two (initClient "dev" "prov")
        ⟨true, true, 0, "ck", 5, true, true, 3⟩ ⟨true, true, 0, "ck", 5, true, true, 4⟩ = 0
    ∧ publishes_of_two (initClient "dev" "prov")
        ⟨true, true, 0, "ck", 5, true, true, 3⟩ ⟨true, true, 0, "ck", 5, true, true, 4⟩ ≠ 1 := by
  decide

/-- C5 (amended): two consecutive `sync_to_provider` calls with the database
version unchanged publish exactly one sync-request message provided the first
call runs (not already syncing, connect/read/publish succeed), sees a version
different from the last synced one, and receives a positive acknowledgment;
the second call then short-circuits as a no-op.  (Without the acknowledgment
the bookkeeping is unchanged and the second call publishes again; if the
version already matches — e.g. a fresh client over a version-0 database —
neither call publishes.) -/
theorem noop_second_sync (c : ClientState) (e1 e2 : SyncEnv)
    (hs : c.is_syncing = false)
    (hc1 : e1.connectOk = true) (hr1 : e1.readOk = true)
    (hv : e1.dbVersion ≠ c.last_sync_version)
    (hp1 : e1.publishOk = true) (ha : e1.ackSuccess = true)
    (hc2 : e2.connectOk = true) (hr2 : e2.readOk = true)
    (hv2 : e2.dbVersion = e1.dbVersion) :
    publishes_of_two c e1 e2 = 1 ∧ (sync_twice c e1 e2).2.outcome = .noop := by
  constructor
  · simp [publishes_of_two, sync_twice, sync_to_provider, hs, hc1, hr1, hv, hp1, ha,
      hc2, hr2, hv2]
  · simp [sync_twice, sync_to_provider, hs, hc1, hr1, hv, hp1, ha, hc2, hr2, hv2]

/-- C5 witness: a concrete acknowledged first sync at version 42 followed by a
second call at the same version publishes once in total, the second call being
a no-op. -/
theorem noop_second_sync_witness :
    publishes_of_two (initClient "dev" "prov")
        ⟨true, true, 42, "ck", 5, true, true, 7⟩ ⟨true, true, 42, "ck", 5, true, true, 9⟩ = 1
    ∧ (sync_twice (initClient "dev" "prov")
        ⟨true, true, 42, "ck", 5, true, true, 7⟩
        ⟨true, true, 42, "ck", 5, true, true, 9⟩).2.outcome = .noop :=
  noop_second_sync (initClient "dev" "prov")
    ⟨true, true, 42, "ck", 5, true, true, 7⟩ ⟨true, true, 42, "ck", 5, true, true, 9⟩
    rfl rfl rfl (by decide) rfl rfl rfl rfl rfl

/-- C6: the run reaches the `synced` outcome exactly when it actually
published and a positive acknowledgment arrived within the bounded wait; on
any other outcome (already-syncing, no-op, timeout, exception) the client
state — `last_sync_version` and the `data_replication_state` row — is left
completely unchanged; on the `synced` outcome both are updated to the
just-synced version and checksum; and a timeout reports failure having
published exactly once (no retry within the run). -/
theorem sync_bookkeeping_iff_ack (c : ClientState) (env : SyncEnv) :
    ((sync_to_provider c env).outcome = .synced ↔
      (c.is_syncing = false ∧ env.connectOk = true ∧ env.readOk = true
        ∧ env.dbVersion ≠ c.last_sync_version ∧ env.publishOk = true
        ∧ env.ackSuccess = true))
    ∧ ((sync_to_provider c env).outcome ≠ .synced → (sync_to_provider c env).state = c)
    ∧ ((sync_to_provider c env).outcome = .synced →
        (sync_to_provider c env).state.last_sync_version = env.dbVersion
        ∧ (sync_to_provider c env).state.repl_state = some
            ⟨c.device_id ++ "_" ++ c.provider_device_id, c.device_id, c.provider_device_id,
              none, "full_db", env.now, env.dbVersion, env.dbVersion, "in_sync",
              env.dbChecksum⟩)
    ∧ ((sync_to_provider c env).outcome = .noAck →
        (sync_to_provider c env).publishCount = 1) := by
  by_cases h1 : c.is_syncing = true
  · simp [sync_to_provider, h1]
  · rw [Bool.not_eq_true] at h1
    by_cases h2 : env.connectOk = true
    · by_cases h3 : env.readOk = true
      · by_cases h4 : env.dbVersion = c.last_sync_version
        · simp [sync_to_provider, h1, h2, h3, h4]
        · by_cases h5 : env.publishOk = true
          · by_cases h6 : env.ackSuccess = true
            · simp [sync_to_provider, h1, h2, h3, h4, h5, h6]
            · rw [Bool.not_eq_true] at h6
              simp [sync_to_provider, h1, h2, h3, h4, h5, h6]
          · rw [Bool.not_eq_true] at h5
            simp [sync_to_provider, h1, h2, h3, h4, h5]
      · rw [Bool.not_eq_true] at h3
        simp [sync_to_provider, h1, h2, h3]
    · rw [Bool.not_eq_true] at h2
      simp [sync_to_provider, h1, h2]

/-- C6 witness: a concrete acknowledged run at version 1 reaches `synced` and
writes the replication-state row for "dev"→"prov". -/
theorem sync_bookkeeping_iff_ack_witness :
    (sync_to_provider (initClient "dev" "prov")
        ⟨true, true, 1, "ck", 5, true, true, 7⟩).outcome = .synced
    ∧ (sync_to_provider (initClient "dev" "prov")
        ⟨true, true, 1, "ck", 5, true, true, 7⟩).state.repl_state
      = some ⟨"dev" ++ "_" ++ "prov", "dev", "prov", none, "full_db", 7, 1, 1,
          "in_sync", "ck"⟩ := by
  have h := sync_bookkeeping_iff_ack (initClient "dev" "prov")
    ⟨true, true, 1, "ck", 5, true, true, 7⟩
  have ho : (sync_to_provider (initClient "dev" "prov")
      ⟨true, true, 1, "ck", 5, true, true, 7⟩).outcome = .synced :=
    h.1.mpr ⟨rfl, rfl, rfl, by decide, rfl, rfl⟩
  exact ⟨ho, (h.2.2.1 ho).2⟩

end StorageReplicationClient

/-! ## Claim theorems: chunked transfer -/

namespace APNDataSync

/-- C4 counterexample: `handle_complete` performs no chunk-count comparison.
A transfer declaring 3 total chunks of which only distinct indices 0 and 2
were received is imported whenever the declared checksum equals the hash of
the two-chunk concatenation, so completion does not require the received
distinct-chunk count (here 2) to equal the declared total (here 3). -/
theorem import_without_all_chunks :
    (handle_complete (fun b => toString b)
        ⟨[(0, [1]), (2, [2])], some ⟨"db", 600, 3, 262144, toString [1, 2]⟩,
          some "/tmp/apn_sync/db"⟩).2
      = .imported [1, 2]
    ∧ chunkCount ⟨[(0, [1]), (2, [2])], some ⟨"db", 600, 3, 262144, toString [1, 2]⟩,
        some "/tmp/apn_sync/db"⟩ = 2
    ∧ (⟨"db", 600, 3, 262144, toString [1, 2]⟩ : TransferMetadata).total_chunks = 3 := by
  refine ⟨?_, rfl, rfl⟩
  decide

/-- C4 (amended): the receiver treats a transfer as complete and imports
exactly when the checksum of the blob reassembled from the chunks present (in
ascending index order) equals the declared checksum; the distinct-chunk count
is never compared with the declared total.  Dropping a chunk whose absence
changes the hash therefore fails with a checksum mismatch — which covers the
spec's 600 KB scenario, whose declared chunk count is the sender's ceiling
division: ceil(600 KB / 256 KB) = 3. -/
theorem complete_imports_iff_checksum (sha256 : Bytes → String) (st : ReceiverState)
    (path : String) (md : TransferMetadata)
    (hp : st.temp_db_path = some path) (hm : st.metadata = some md) :
    ((handle_complete sha256 st).2 = .imported (reconstruct st.chunks)
      ↔ sha256 (reconstruct st.chunks) = md.checksum)
    ∧ calcTotalChunks (600 * 1024) CHUNK_SIZE = 3
    ∧ (∀ c0 c1 c2 : Bytes, st.chunks = [(0, c0), (2, c2)]
        → md.checksum = sha256 (c0 ++ c1 ++ c2)
        → sha256 (c0 ++ c2) ≠ sha256 (c0 ++ c1 ++ c2)
        → (handle_complete sha256 st).2 = .checksumMismatch) := by
  refine ⟨?_, by decide, ?_⟩
  · by_cases hck : sha256 (reconstruct st.chunks) = md.checksum
    · simp [handle_complete, hp, hm, hck]
    · simp [handle_complete, hp, hm, hck]
  · intro c0 c1 c2 hch hdecl hne
    have hrec : reconstruct st.chunks = c0 ++ c2 := by
      rw [hch]
      simp [reconstruct, sortKeys, insertSorted, List.lookup]
    simp [handle_complete, hp, hm, hrec, hdecl]
    rw [if_neg (by rw [← List.append_assoc]; exact hne)]

/-- C4 witness: declared total 3, chunks 0 and 2 present, checksum declared
over the full three-chunk blob — completion fails with a checksum mismatch
instead of importing. -/
theorem complete_imports_iff_checksum_witness :
    (handle_complete (fun b => toString b)
        ⟨[(0, [1]), (2, [3])], some ⟨"db", 9, 3, 262144, toString [1, 2, 3]⟩,
          some "/tmp/apn_sync/db"⟩).2
      = .checksumMismatch :=
  (complete_imports_iff_checksum (fun b => toString b)
      ⟨[(0, [1]), (2, [3])], some ⟨"db", 9, 3, 262144, toString [1, 2, 3]⟩,
        some "/tmp/apn_sync/db"⟩
      "/tmp/apn_sync/db" ⟨"db", 9, 3, 262144, toString [1, 2, 3]⟩ rfl rfl).2.2
    [1] [2] [3] rfl rfl (by decide)

end APNDataSync

end SovereignStorage
